import Mathlib

/-!
Verification development for PO2XL (src/PO2XL.py), a Streamlit app that
uploads a Purchase Order image/PDF, sends it to a hosted model, parses the
pipe-delimited text response with pandas, and offers an Excel download.

The Python code is shallowly embedded below.  Text is modelled as
`List Char`; a pandas `DataFrame` is modelled as a header list, a list of
integer row labels (the index) and a list of rows of raw cell texts.
External effects (PIL image opening, PDF text extraction, the hosted-model
call) are modelled by an `Oracle` giving their outcomes, and a `Session`
records the user-visible effects of one script run (error messages,
crashes, frames built, artifact offered).
-/

set_option autoImplicit false

namespace PO2XL

/-- Response / cell text is modelled as a list of characters. -/
abbrev Chars := List Char

/-- Split a character list at every occurrence of `sep` (the splitting used
by the embedded line- and field-splitting; mirrors Python/pandas splitting
on a one-character delimiter).  Always returns at least one part. -/
def splitOnChar (sep : Char) : List Char → List (List Char)
  | [] => [[]]
  | c :: cs =>
    if c = sep then [] :: splitOnChar sep cs
    else (c :: (splitOnChar sep cs).headD []) :: (splitOnChar sep cs).tail

/-- Truthiness of Python `response.strip()` at line 138: true iff the text
has at least one non-whitespace character. -/
def stripNonEmpty (s : Chars) : Bool :=
  s.any (fun c => !c.isWhitespace)

/-- Errors that the Python runtime can raise in the embedded fragment. -/
inductive PyError where
  | emptyData
  | tokenizing
  | keyError (k : Nat)
  | attributeError
  | unidentifiedImage
deriving Repr, DecidableEq

/-- A pandas DataFrame: named columns, integer row labels (index), and the
rows of cell texts.  Cells are modelled by their raw field text. -/
structure DataFrame where
  columns : List Chars
  index : List Nat
  rows : List (List Chars)
deriving Repr, DecidableEq

/-- The name pandas gives to an empty header field at position `i`. -/
def unnamedName (i : Nat) : Chars :=
  "Unnamed: ".toList ++ (Nat.repr i).toList

/-- pandas `read_csv` header handling: an empty header field at position
`i` becomes `Unnamed: i`. -/
def renameUnnamed (fields : List Chars) : List Chars :=
  fields.enum.map (fun p => if p.2.isEmpty then unnamedName p.1 else p.2)

/-- Non-blank (non-empty) lines of the text, as pandas `read_csv` skips
blank lines before and between records. -/
def nonBlankLines (s : Chars) : List Chars :=
  (splitOnChar '\n' s).filter (fun l => !l.isEmpty)

/-- `pd.read_csv(StringIO(response), delimiter='|')` at line 139: the first
non-blank line is the header (empty header fields renamed to `Unnamed: i`),
the remaining non-blank lines are data rows labelled `0, 1, ...`.  No input
at all raises `EmptyDataError`.  Simplification: a data row whose field
count differs from the header's is modelled as a tokenizing error (pandas
NaN-pads shorter rows and has an implicit-index heuristic for longer rows);
the claims below only use inputs on which the two agree (rectangular
tables, and single-column no-pipe texts, which are always rectangular). -/
def parseLines : List Chars → Except PyError DataFrame
  | [] => .error .emptyData
  | header :: dataLines =>
    if (dataLines.map (splitOnChar '|')).all
        (fun r => r.length == (renameUnnamed (splitOnChar '|' header)).length) then
      .ok ⟨renameUnnamed (splitOnChar '|' header),
           List.range (dataLines.map (splitOnChar '|')).length,
           dataLines.map (splitOnChar '|')⟩
    else
      .error .tokenizing

/-- See `parseLines` for the record handling; `read_csv` applies it to the
non-blank lines of the text. -/
def read_csv (text : Chars) : Except PyError DataFrame :=
  parseLines (nonBlankLines text)

/-- Does a column name match the pattern `^Unnamed` of line 142, i.e. does
it begin with the characters of `Unnamed`? -/
def isUnnamed (name : Chars) : Bool :=
  "Unnamed".toList.isPrefixOf name

/-- The boolean keep-mask `~df.columns.str.contains('^Unnamed')`. -/
def keepMask (cols : List Chars) : List Bool :=
  cols.map (fun c => !isUnnamed c)

/-- Keep the entries of `xs` at the positions where `mask` is true. -/
def maskKeep {α : Type} (mask : List Bool) (xs : List α) : List α :=
  ((mask.zip xs).filter (fun p => p.1)).map (fun p => p.2)

/-- Line 142, `df.loc[:, ~df.columns.str.contains('^Unnamed')]`: drop every
column whose name begins with `Unnamed`, and the matching cell of each
row; the index is unchanged. -/
def dropUnnamedCols (df : DataFrame) : DataFrame :=
  ⟨maskKeep (keepMask df.columns) df.columns,
   df.index,
   df.rows.map (maskKeep (keepMask df.columns))⟩

/-- Line 143, `df.drop(0)`: remove the rows labelled `0`; raises a
`KeyError` when no row is labelled `0`. -/
def drop0 (df : DataFrame) : Except PyError DataFrame :=
  if 0 ∈ df.index then
    let kept := (df.index.zip df.rows).filter (fun p => p.1 != 0)
    .ok ⟨df.columns, kept.map (fun p => p.1), kept.map (fun p => p.2)⟩
  else
    .error (.keyError 0)

/-- Line 146, `df.reset_index(drop=True)`: relabel the rows `0, 1, ...`. -/
def resetIndex (df : DataFrame) : DataFrame :=
  ⟨df.columns, List.range df.rows.length, df.rows⟩

/-- User-visible outcome of the response-parsing block (lines 138-167):
`caught` is the exception caught by the `except` at line 166 (reported as
a failure message), `emptyMsg` is the line-164 message of the `else`
branch, `framesBuilt` counts `read_csv` successes, `download` is the final
DataFrame offered via the download button (also the one displayed). -/
structure ParseRun where
  caught : Option PyError
  emptyMsg : Bool
  framesBuilt : Nat
  download : Option DataFrame
deriving Repr, DecidableEq

/-- Continuation after line 143's `df.drop(0)`: a raised `KeyError` is
caught at line 166; on success the index is reset (line 146) and the frame
is displayed and offered for download (lines 149-162). -/
def afterDrop : Except PyError DataFrame → ParseRun
  | .error e => ⟨some e, false, 1, none⟩
  | .ok df2 => ⟨none, false, 1, some (resetIndex df2)⟩

/-- Continuation after line 139's `read_csv`: a raised parse error is
caught at line 166; on success the `Unnamed` columns are dropped
(line 142) and row 0 is dropped (line 143). -/
def afterRead : Except PyError DataFrame → ParseRun
  | .error e => ⟨some e, false, 0, none⟩
  | .ok df => afterDrop (drop0 (dropUnnamedCols df))

/-- Lines 138-167 applied to a (non-`None`) response text: if the stripped
text is non-empty, parse it, drop `Unnamed` columns, drop row 0 and reset
the index; any raised error is caught at line 166; otherwise show the
empty-response message (line 164).  A download is offered exactly on full
success. -/
def processResponse (response : Chars) : ParseRun :=
  if stripNonEmpty response then afterRead (read_csv response)
  else ⟨none, true, 0, none⟩

/-- Lines 138-167 applied to the value returned by `get_po_details`: on
`None`, `response.strip()` raises an `AttributeError`, caught at line 166. -/
def processResponseOpt : Option Chars → ParseRun
  | none => ⟨some .attributeError, false, 0, none⟩
  | some t => processResponse t

/-- Outcome of the single `generate_content` call inside `get_po_details`:
the call raises, or returns a text. -/
inductive ModelResult where
  | fail
  | ok (text : Chars)
deriving Repr, DecidableEq

/-- `get_po_details` (lines 19-51): one model call; a raised error or an
empty `response.text` (the `ValueError` of line 46) is caught by the
function's own `except`, which shows an error and returns `None`. -/
def get_po_details : ModelResult → Option Chars
  | .fail => none
  | .ok t => if t.isEmpty then none else some t

/-- Whether `get_po_details` showed its own `st.error` (line 50). -/
def geminiErrorIn : ModelResult → Bool
  | .fail => true
  | .ok t => t.isEmpty

/-- An uploaded file, reduced to its declared media type; the byte payload
only flows into external calls whose outcomes the `Oracle` provides. -/
structure Upload where
  mime : String
deriving Repr, DecidableEq

/-- Outcomes of the external calls made during one run: whether
`Image.open` succeeds, the text produced by PDF extraction (`none` when
`process_pdf`'s body raises), and the hosted-model call outcome. -/
structure Oracle where
  imageOpens : Bool
  pdf : Option Chars
  model : ModelResult
deriving Repr, DecidableEq

/-- User-visible effects of one script run: number of `generate_content`
calls issued, the `st.error` inside `process_pdf` (line 86), the
`st.error` inside `get_po_details` (line 50), an uncaught exception that
aborts the run (`crashed`), the parse block's effects when reached, and
the artifact offered for download. -/
structure Session where
  modelCalls : Nat
  pdfErrorShown : Bool
  geminiErrorShown : Bool
  crashed : Option PyError
  parse : Option ParseRun
  download : Option DataFrame
deriving Repr, DecidableEq

/-- The extraction block (lines 129-167), reached when `image_data` is a
non-empty list: exactly one model call, then the response is parsed. -/
def extractPhase (m : ModelResult) : Session :=
  let run := processResponseOpt (get_po_details m)
  ⟨1, false, geminiErrorIn m, none, some run, run.download⟩

/-- The media types taken by the image branch at line 115. -/
def imageMimes : List String :=
  ["image/jpeg", "image/png", "image/jpg"]

/-- The module-level flow (lines 109-167).  Image branch: `Image.open`
raising at line 116 is uncaught and aborts the run; otherwise the image
payload is prepared and extraction runs.  PDF branch: if `process_pdf`
raised, its own handler showed an error and returned `None`, and then
line 125 evaluates `pdf_text.encode()` on `None` outside any handler,
raising an uncaught `AttributeError`; otherwise extraction runs on the
encoded text.  Any other media type takes no branch.  With no upload,
nothing happens. -/
def runSession : Option Upload → Oracle → Session
  | none, _ => ⟨0, false, false, none, none, none⟩
  | some u, env =>
    if u.mime ∈ imageMimes then
      if env.imageOpens then extractPhase env.model
      else ⟨0, false, false, some .unidentifiedImage, none, none⟩
    else if u.mime = "application/pdf" then
      match env.pdf with
      | none => ⟨0, true, false, some .attributeError, none, none⟩
      | some _ => extractPhase env.model
    else ⟨0, false, false, none, none, none⟩

/-- Modelled from the spec: `df.to_excel(buffer, index=False)` (line 153) is
an external pandas/openpyxl call not part of this repository.  Per the spec
it serializes the ParsedTable to a spreadsheet: one header row holding the
column names in order, followed by the data rows, the index omitted. -/
def toExcelGrid (df : DataFrame) : List (List Chars) :=
  df.columns :: df.rows

/-- Modelled from the spec: reopening the spreadsheet is not code of this
repository; per the spec the first row of the written grid is read back as
the column names and the remaining rows as the data rows, freshly
indexed. -/
def fromExcelGrid : List (List Chars) → Option DataFrame
  | [] => none
  | header :: rows => some ⟨header, List.range rows.length, rows⟩

/-- Witness input for C3: a pipe-delimited response with three data rows. -/
def c3s : Chars := "H|I\n1|a\n2|b\n3|c".toList

/-- The DataFrame `read_csv` builds from `c3s`. -/
def c3df : DataFrame := (read_csv c3s).toOption.getD ⟨[], [], []⟩

/-- Witness input for C4: a markdown-style table whose outer pipes produce
empty header fields, hence `Unnamed: 0` and `Unnamed: 3` columns. -/
def c4s : Chars := "|A|B|\n|1|2|\n|3|4|".toList

/-- The DataFrame `read_csv` builds from `c4s`. -/
def c4df : DataFrame := (read_csv c4s).toOption.getD ⟨[], [], []⟩

/-- The final table the app offers for download on input `c4s`. -/
def c4final : DataFrame := ((processResponse c4s).download).getD ⟨[], [], []⟩

/-- Some error message was shown to the user during the run. -/
def Session.errorReported (s : Session) : Bool :=
  s.pdfErrorShown || s.geminiErrorShown ||
    (match s.parse with
     | some r => r.caught.isSome || r.emptyMsg
     | none => false)

/-- Number of DataFrames built (`read_csv` successes) during the run. -/
def Session.framesBuilt (s : Session) : Nat :=
  match s.parse with
  | some r => r.framesBuilt
  | none => 0

/-! ### Helper lemmas about the embedded operations -/

theorem splitOnChar_ne_nil (sep : Char) (l : List Char) : splitOnChar sep l ≠ [] := by
  cases l with
  | nil => simp [splitOnChar]
  | cons c cs =>
    simp only [splitOnChar]
    split <;> simp

theorem splitOnChar_of_not_mem (sep : Char) (l : List Char) (h : sep ∉ l) :
    splitOnChar sep l = [l] := by
  induction l with
  | nil => rfl
  | cons c cs ih =>
    have hc : c ≠ sep := fun hc => h (hc ▸ List.mem_cons_self c cs)
    have hcs : sep ∉ cs := fun hm => h (List.mem_cons_of_mem c hm)
    simp only [splitOnChar, if_neg hc, ih hcs]
    rfl

theorem mem_of_mem_splitOnChar (sep : Char) (l : List Char) (p : List Char) (c : Char)
    (hp : p ∈ splitOnChar sep l) (hc : c ∈ p) : c ∈ l := by
  induction l generalizing p with
  | nil =>
    simp only [splitOnChar, List.mem_singleton] at hp
    subst hp
    exact absurd hc (List.not_mem_nil c)
  | cons x xs ih =>
    simp only [splitOnChar] at hp
    by_cases hx : x = sep
    · rw [if_pos hx] at hp
      rcases List.mem_cons.mp hp with h1 | h2
      · subst h1; exact absurd hc (List.not_mem_nil c)
      · exact List.mem_cons_of_mem x (ih p h2 hc)
    · rw [if_neg hx] at hp
      obtain ⟨q, qs, hq⟩ := List.exists_cons_of_ne_nil (splitOnChar_ne_nil sep xs)
      rw [hq] at hp
      rcases List.mem_cons.mp hp with h1 | h2
      · subst h1
        rcases List.mem_cons.mp hc with h3 | h4
        · exact h3 ▸ List.mem_cons_self x xs
        · exact List.mem_cons_of_mem x (ih q (hq ▸ List.mem_cons_self q qs) h4)
      · exact List.mem_cons_of_mem x (ih p (hq ▸ List.mem_cons_of_mem q h2) hc)

theorem maskKeep_map_eq_filter {α : Type} (p : α → Bool) (xs : List α) :
    maskKeep (xs.map p) xs = xs.filter p := by
  induction xs with
  | nil => rfl
  | cons x l ih =>
    simp only [maskKeep] at ih
    cases hx : p x with
    | true => simp [maskKeep, List.filter_cons, hx, ih]
    | false => simp [maskKeep, List.filter_cons, hx, ih]

theorem filter_zip_succ {α : Type} (ns : List Nat) (rs : List α) :
    ((ns.map Nat.succ).zip rs).filter (fun p => p.1 != 0) = (ns.map Nat.succ).zip rs := by
  induction ns generalizing rs with
  | nil => rfl
  | cons n l ih =>
    cases rs with
    | nil => rfl
    | cons r rs' =>
      simp [List.filter_cons, ih]

theorem map_snd_zip_eq {α : Type} (ns : List Nat) (rs : List α) (h : ns.length = rs.length) :
    ((ns.zip rs).map (fun p => p.2)) = rs := by
  induction ns generalizing rs with
  | nil => cases rs with
    | nil => rfl
    | cons r rs' => simp at h
  | cons n l ih =>
    cases rs with
    | nil => simp at h
    | cons r rs' =>
      simp only [List.zip_cons_cons, List.map_cons]
      rw [ih rs' (by simpa using h)]

theorem map_fst_zip_eq {α : Type} (ns : List Nat) (rs : List α) (h : ns.length = rs.length) :
    ((ns.zip rs).map (fun p => p.1)) = ns := by
  induction ns generalizing rs with
  | nil => rfl
  | cons n l ih =>
    cases rs with
    | nil => simp at h
    | cons r rs' =>
      simp only [List.zip_cons_cons, List.map_cons]
      rw [ih rs' (by simpa using h)]

theorem drop0_range (c : List Chars) (r : List Chars) (rs : List (List Chars)) :
    ∃ idx2, drop0 ⟨c, List.range (r :: rs).length, r :: rs⟩ = .ok ⟨c, idx2, rs⟩ := by
  have hmem : 0 ∈ List.range (r :: rs).length := by
    simp [List.mem_range]
  have hrange : List.range (r :: rs).length = 0 :: (List.range rs.length).map Nat.succ := by
    simp [List.length_cons, List.range_succ_eq_map]
  have hlen : ((List.range rs.length).map Nat.succ).length = rs.length := by simp
  refine ⟨(List.range rs.length).map Nat.succ, ?_⟩
  simp only [drop0, if_pos hmem]
  rw [hrange]
  simp only [List.zip_cons_cons, List.filter_cons]
  rw [if_neg (by simp), filter_zip_succ]
  rw [map_snd_zip_eq _ _ hlen, map_fst_zip_eq _ _ hlen]

theorem read_csv_index (s : Chars) (df : DataFrame) (h : read_csv s = .ok df) :
    df.index = List.range df.rows.length := by
  unfold read_csv at h
  cases hnb : nonBlankLines s with
  | nil =>
    rw [hnb] at h
    simp [parseLines] at h
  | cons hd tl =>
    rw [hnb] at h
    simp only [parseLines] at h
    split at h
    · cases h
      rfl
    · exact absurd h (by simp)

theorem drop0_columns (df df2 : DataFrame) (h : drop0 df = .ok df2) :
    df2.columns = df.columns := by
  unfold drop0 at h
  split at h
  · cases h; rfl
  · exact absurd h (by simp)

theorem pipe_stripNonEmpty (s : Chars) (h : '|' ∈ s) : stripNonEmpty s = true :=
  List.any_eq_true.mpr ⟨'|', h, by decide⟩

theorem map_congr_mem {α β : Type} (f g : α → β) (l : List α) (h : ∀ x ∈ l, f x = g x) :
    l.map f = l.map g := by
  induction l with
  | nil => rfl
  | cons x xs ih =>
    simp only [List.map_cons]
    rw [h x (List.mem_cons_self x xs), ih (fun y hy => h y (List.mem_cons_of_mem x hy))]

theorem renameUnnamed_singleton (h0 : Chars) (h : h0 ≠ []) : renameUnnamed [h0] = [h0] := by
  cases h0 with
  | nil => exact absurd rfl h
  | cons c cs => rfl

theorem nonBlank_no_pipe (s : Chars) (hnp : '|' ∉ s) (l : Chars) (hl : l ∈ nonBlankLines s) :
    '|' ∉ l := fun hp =>
  hnp (mem_of_mem_splitOnChar '\n' s l '|' (List.mem_of_mem_filter hl) hp)

theorem nonBlank_ne_nil (s : Chars) (l : Chars) (hl : l ∈ nonBlankLines s) : l ≠ [] := by
  have hf := List.of_mem_filter hl
  simp only [Bool.not_eq_true'] at hf
  intro he
  rw [he] at hf
  exact absurd hf (by simp)

theorem drop0_frame (c : List Chars) (idx : List Nat) (r0 : List Chars)
    (rs : List (List Chars)) (hidx : idx = List.range (r0 :: rs).length) :
    ∃ idx2, drop0 ⟨c, idx, r0 :: rs⟩ = .ok ⟨c, idx2, rs⟩ := by
  subst hidx
  exact drop0_range c r0 rs

theorem processResponse_ok (s : Chars) (df : DataFrame) (hs : stripNonEmpty s = true)
    (h : read_csv s = .ok df) (r0 : List Chars) (rs : List (List Chars))
    (hr : df.rows = r0 :: rs) :
    ∃ idx2, processResponse s =
      ⟨none, false, 1,
       some (resetIndex ⟨maskKeep (keepMask df.columns) df.columns, idx2,
                         rs.map (maskKeep (keepMask df.columns))⟩)⟩ := by
  have hidx := read_csv_index s df h
  rw [hr] at hidx
  have hdun : dropUnnamedCols df =
      ⟨maskKeep (keepMask df.columns) df.columns, df.index,
       maskKeep (keepMask df.columns) r0 :: rs.map (maskKeep (keepMask df.columns))⟩ := by
    rw [dropUnnamedCols, hr]
    simp [List.map_cons]
  have hlen : df.index = List.range
      (maskKeep (keepMask df.columns) r0 :: rs.map (maskKeep (keepMask df.columns))).length := by
    rw [hidx]
    simp
  obtain ⟨idx2, hdrop⟩ := drop0_frame (maskKeep (keepMask df.columns) df.columns) df.index
    (maskKeep (keepMask df.columns) r0) (rs.map (maskKeep (keepMask df.columns))) hlen
  refine ⟨idx2, ?_⟩
  rw [processResponse, if_pos hs, h]
  simp only [afterRead]
  rw [hdun, hdrop]
  simp only [afterDrop]

theorem processResponse_header_only (s : Chars) (df : DataFrame)
    (hs : stripNonEmpty s = true) (h : read_csv s = .ok df) (hr : df.rows = []) :
    processResponse s = ⟨some (.keyError 0), false, 1, none⟩ := by
  have hidx := read_csv_index s df h
  rw [hr] at hidx
  have hnot : ¬ (0 ∈ (dropUnnamedCols df).index) := by
    show ¬ (0 ∈ df.index)
    rw [hidx]
    simp
  have hdrop : drop0 (dropUnnamedCols df) = .error (.keyError 0) := by
    rw [drop0, if_neg hnot]
  rw [processResponse, if_pos hs, h]
  simp only [afterRead]
  rw [hdrop]
  simp only [afterDrop]

theorem renameUnnamed_length (fields : List Chars) :
    (renameUnnamed fields).length = fields.length := by
  simp [renameUnnamed]

theorem read_csv_single_column (s : Chars) (hnp : '|' ∉ s) (h0 : Chars) (ds : List Chars)
    (hnb : nonBlankLines s = h0 :: ds) :
    read_csv s = .ok ⟨[h0], List.range (ds.map (fun l => [l])).length,
                      ds.map (fun l => [l])⟩ := by
  have hmap : ∀ l ∈ nonBlankLines s, splitOnChar '|' l = [l] := fun l hl =>
    splitOnChar_of_not_mem '|' l (nonBlank_no_pipe s hnp l hl)
  have hh0 : splitOnChar '|' h0 = [h0] :=
    hmap h0 (hnb ▸ List.mem_cons_self h0 ds)
  have hds : ds.map (splitOnChar '|') = ds.map (fun l => [l]) :=
    map_congr_mem _ _ ds (fun l hl => hmap l (hnb ▸ List.mem_cons_of_mem h0 hl))
  have hren : renameUnnamed (splitOnChar '|' h0) = [h0] := by
    rw [hh0]
    exact renameUnnamed_singleton h0 (nonBlank_ne_nil s h0 (hnb ▸ List.mem_cons_self h0 ds))
  have hall : (ds.map (splitOnChar '|')).all
      (fun r => r.length == (renameUnnamed (splitOnChar '|' h0)).length) = true := by
    rw [hren, hds]
    refine List.all_eq_true.mpr ?_
    intro r hrm
    obtain ⟨l, _, rfl⟩ := List.mem_map.mp hrm
    rfl
  rw [read_csv, hnb]
  simp only [parseLines]
  rw [if_pos hall, hren, hds]

/-! ### Claims -/

/-- Claim C1, counterexample: the response text `"a\nb"` contains no pipe
delimiter, yet the parser path reports no error at all (no caught
exception and no empty-response message) and offers a download: a
multi-line no-pipe text is parsed as a one-column table. -/
theorem C1_counterexample :
    ('|' ∉ "a\nb".toList) ∧
    (processResponse "a\nb".toList).caught = none ∧
    (processResponse "a\nb".toList).emptyMsg = false ∧
    (processResponse "a\nb".toList).download.isSome = true := by
  decide

/-- Claim C1 (amended): on a response text with no pipe delimiters the
parser path never raises an unhandled structural error, but it does not
always report a ParseError either: an empty or whitespace-only text takes
the empty-response branch; any parse failure is caught and reported; a
text with exactly one non-blank line parses to a zero-row table whose
row-0 drop raises a KeyError, caught and reported; and a text with two or
more non-blank lines parses as a one-column table, reporting nothing and
offering a download. -/
theorem C1_no_pipe (s : Chars) :
    (stripNonEmpty s = false →
      (processResponse s).emptyMsg = true ∧ (processResponse s).download = none) ∧
    (∀ e, stripNonEmpty s = true → read_csv s = .error e →
      (processResponse s).caught = some e ∧ (processResponse s).download = none) ∧
    ('|' ∉ s → stripNonEmpty s = true →
      ((nonBlankLines s).length = 1 →
        (processResponse s).caught = some (.keyError 0) ∧
        (processResponse s).download = none) ∧
      (2 ≤ (nonBlankLines s).length →
        (processResponse s).caught = none ∧ (processResponse s).emptyMsg = false ∧
        (processResponse s).download.isSome = true)) := by
  refine ⟨?_, ?_, ?_⟩
  · intro hs
    rw [processResponse, if_neg (by simp [hs])]
    exact ⟨rfl, rfl⟩
  · intro e hs herr
    rw [processResponse, if_pos hs, herr]
    exact ⟨rfl, rfl⟩
  · intro hnp hs
    constructor
    · intro h1
      obtain ⟨h0, hnb⟩ := List.length_eq_one.mp h1
      have hok := read_csv_single_column s hnp h0 [] hnb
      have hres := processResponse_header_only s _ hs hok rfl
      rw [hres]
      exact ⟨rfl, rfl⟩
    · intro h2
      cases hnb : nonBlankLines s with
      | nil => rw [hnb] at h2; simp at h2
      | cons h0 tl =>
        cases tl with
        | nil => rw [hnb] at h2; simp at h2
        | cons d ds =>
          have hok := read_csv_single_column s hnp h0 (d :: ds) hnb
          obtain ⟨idx2, hres⟩ := processResponse_ok s _ hs hok [d]
            (ds.map (fun l => [l])) (by simp)
          rw [hres]
          exact ⟨rfl, rfl, rfl⟩

/-- Claim C1 witness: instantiating the amended theorem at the concrete
no-pipe two-line text `"x\ny"`. -/
theorem C1_witness :
    (processResponse "x\ny".toList).caught = none ∧
    (processResponse "x\ny".toList).emptyMsg = false ∧
    (processResponse "x\ny".toList).download.isSome = true :=
  ((C1_no_pipe "x\ny".toList).2.2 (by decide) (by decide)).2 (by decide)

/-- Claim C2, behaviour at the failing input: for a PDF upload whose text
extraction raises (so `process_pdf` shows its error and returns `None`),
the run shows the `process_pdf` message but then line 125 evaluates
`pdf_text.encode()` on `None` outside every handler, so the run aborts
with an uncaught AttributeError instead of the caught-and-reported
handling the policy promises; no extraction call is made. -/
theorem C2_pdf_failure_crash :
    runSession (some ⟨"application/pdf"⟩) ⟨true, none, .ok "x".toList⟩ =
      ⟨0, true, false, some .attributeError, none, none⟩ := by
  decide

/-- Claim C3: a pipe-delimited response parsed into at least two data rows
always has its first data row dropped: the final table's rows are the
parsed rows from the second onward (restricted to the kept columns), its
first row is the parsed second data row, and the row index is resequenced
contiguously from zero. -/
theorem C3_drops_first_row (s : Chars) (df : DataFrame) (h : read_csv s = .ok df)
    (hp : '|' ∈ s) (h2 : 2 ≤ df.rows.length) :
    ∃ final, (processResponse s).download = some final ∧
      final.rows = df.rows.tail.map (maskKeep (keepMask df.columns)) ∧
      final.index = List.range (df.rows.length - 1) ∧
      final.rows.head? = df.rows[1]?.map (maskKeep (keepMask df.columns)) := by
  have hs := pipe_stripNonEmpty s hp
  rcases hr : df.rows with _ | ⟨r0, tl⟩
  · rw [hr] at h2; simp at h2
  rcases tl with _ | ⟨r1, rest⟩
  · rw [hr] at h2; simp at h2
  obtain ⟨idx2, hres⟩ := processResponse_ok s df hs h r0 (r1 :: rest) hr
  rw [hres]
  refine ⟨_, rfl, ?_, ?_, ?_⟩
  · simp [resetIndex]
  · simp [resetIndex]
  · simp [resetIndex]

/-- Claim C3 witness: instantiating the theorem at a concrete response
with three data rows. -/
theorem C3_witness :
    ∃ final, (processResponse c3s).download = some final ∧
      final.rows = c3df.rows.tail.map (maskKeep (keepMask c3df.columns)) ∧
      final.index = List.range (c3df.rows.length - 1) ∧
      final.rows.head? = c3df.rows[1]?.map (maskKeep (keepMask c3df.columns)) :=
  C3_drops_first_row c3s c3df (by rfl) (by decide) (by decide)

/-- Claim C4: whenever a parsed response reaches the final table, the
final table's columns are exactly the parsed columns whose name does not
begin with `Unnamed`, in their original order; in particular every
`Unnamed: N` placeholder column is absent. -/
theorem C4_unnamed_dropped (s : Chars) (df final : DataFrame)
    (h : read_csv s = .ok df) (hd : (processResponse s).download = some final) :
    final.columns = df.columns.filter (fun c => !isUnnamed c) ∧
    ∀ c ∈ df.columns, isUnnamed c = true → c ∉ final.columns := by
  cases hstrip : stripNonEmpty s with
  | false =>
    rw [processResponse, if_neg (by simp [hstrip])] at hd
    simp at hd
  | true =>
    rw [processResponse, if_pos hstrip, h] at hd
    simp only [afterRead] at hd
    cases hdrop : drop0 (dropUnnamedCols df) with
    | error e =>
      rw [hdrop] at hd
      simp [afterDrop] at hd
    | ok df2 =>
      rw [hdrop] at hd
      simp only [afterDrop] at hd
      have hfin : final = resetIndex df2 := (Option.some.inj hd).symm
      have hcols : final.columns = df.columns.filter (fun c => !isUnnamed c) := by
        rw [hfin]
        show df2.columns = _
        rw [drop0_columns _ _ hdrop]
        show maskKeep (keepMask df.columns) df.columns = _
        rw [keepMask]
        exact maskKeep_map_eq_filter _ _
      refine ⟨hcols, ?_⟩
      intro c _ hun hmem
      rw [hcols] at hmem
      have hkeep := List.of_mem_filter hmem
      rw [hun] at hkeep
      exact absurd hkeep (by simp)

/-- Claim C4 witness: instantiating the theorem at a markdown-style table
whose outer pipes produce `Unnamed: 0` and `Unnamed: 3` columns. -/
theorem C4_witness :
    c4final.columns = c4df.columns.filter (fun c => !isUnnamed c) ∧
    ∀ c ∈ c4df.columns, isUnnamed c = true → c ∉ c4final.columns :=
  C4_unnamed_dropped c4s c4df c4final (by rfl) (by rfl)

/-- Claim C5: when the model call returns an empty or whitespace-only
response text, the run reports an error to the user, builds no DataFrame,
and offers no download artifact. -/
theorem C5_empty_response (u : Upload) (env : Oracle) (t : Chars)
    (hu : u.mime ∈ imageMimes) (hi : env.imageOpens = true)
    (hm : env.model = .ok t) (ht : stripNonEmpty t = false) :
    (runSession (some u) env).errorReported = true ∧
    (runSession (some u) env).framesBuilt = 0 ∧
    (runSession (some u) env).download = none := by
  simp only [runSession]
  rw [if_pos hu, if_pos hi, hm]
  cases t with
  | nil => exact ⟨rfl, rfl, rfl⟩
  | cons c cs =>
    simp [extractPhase, get_po_details, processResponseOpt, processResponse, ht,
      geminiErrorIn, Session.errorReported, Session.framesBuilt]

/-- Claim C5 witness: instantiating the theorem at a whitespace-only
response text for a PNG upload. -/
theorem C5_witness :
    (runSession (some ⟨"image/png"⟩) ⟨true, none, .ok " ".toList⟩).errorReported = true ∧
    (runSession (some ⟨"image/png"⟩) ⟨true, none, .ok " ".toList⟩).framesBuilt = 0 ∧
    (runSession (some ⟨"image/png"⟩) ⟨true, none, .ok " ".toList⟩).download = none :=
  C5_empty_response ⟨"image/png"⟩ ⟨true, none, .ok " ".toList⟩ " ".toList
    (by decide) rfl rfl (by decide)

/-- Claim C6: for an upload whose media type is none of image/jpeg,
image/png, image/jpg or application/pdf, the run takes no branch: no
extraction call, no message, no crash, no parse, no artifact. -/
theorem C6_unsupported_type (u : Upload) (env : Oracle)
    (h : u.mime ∉ ["image/jpeg", "image/png", "image/jpg", "application/pdf"]) :
    runSession (some u) env = ⟨0, false, false, none, none, none⟩ := by
  have h1 : u.mime ≠ "image/jpeg" := fun e => h (by simp [e])
  have h2 : u.mime ≠ "image/png" := fun e => h (by simp [e])
  have h3 : u.mime ≠ "image/jpg" := fun e => h (by simp [e])
  have h4 : u.mime ≠ "application/pdf" := fun e => h (by simp [e])
  simp only [runSession]
  rw [if_neg (by simp [imageMimes, h1, h2, h3]), if_neg h4]

/-- Claim C6 witness: instantiating the theorem at a text/plain upload. -/
theorem C6_witness :
    runSession (some ⟨"text/plain"⟩) ⟨true, none, .fail⟩ =
      ⟨0, false, false, none, none, none⟩ :=
  C6_unsupported_type ⟨"text/plain"⟩ ⟨true, none, .fail⟩ (by decide)

/-- Claim C7, counterexample: a PDF upload whose text extraction fails
never reaches the extraction call, so that upload issues zero calls, not
exactly one. -/
theorem C7_counterexample :
    (runSession (some ⟨"application/pdf"⟩) ⟨true, none, .fail⟩).modelCalls = 0 ∧
    (runSession (some ⟨"application/pdf"⟩) ⟨true, none, .fail⟩).modelCalls ≠ 1 := by
  decide

/-- Claim C7 (amended): at most one extraction call is issued per upload,
never more, regardless of whether the call succeeds, errors or returns an
empty string; and exactly one is issued whenever payload preparation
succeeds (a supported image that opens, or a PDF whose text extraction
returns). -/
theorem C7_single_attempt (u : Option Upload) (env : Oracle) :
    (runSession u env).modelCalls ≤ 1 ∧
    (∀ up, u = some up →
      ((up.mime ∈ imageMimes ∧ env.imageOpens = true) ∨
       (up.mime = "application/pdf" ∧ env.pdf.isSome = true)) →
      (runSession u env).modelCalls = 1) := by
  cases u with
  | none => exact ⟨by simp [runSession], fun up h => Option.noConfusion h⟩
  | some u =>
    constructor
    · simp only [runSession]
      by_cases hmem : u.mime ∈ imageMimes
      · rw [if_pos hmem]
        cases env.imageOpens
        · simp
        · simp [extractPhase]
      · rw [if_neg hmem]
        by_cases hpdf : u.mime = "application/pdf"
        · rw [if_pos hpdf]
          cases env.pdf
          · simp
          · simp [extractPhase]
        · rw [if_neg hpdf]
          simp
    · intro up hup hcond
      cases hup
      rcases hcond with ⟨hmem, hio⟩ | ⟨hpdf, hps⟩
      · simp only [runSession]
        rw [if_pos hmem, if_pos hio]
        rfl
      · obtain ⟨t, ht⟩ := Option.isSome_iff_exists.mp hps
        simp only [runSession]
        rw [if_neg (by rw [hpdf]; decide), if_pos hpdf, ht]
        rfl

/-- Claim C7 witness: instantiating the amended theorem at a PNG upload
whose model call fails: still exactly one call, and never more than one. -/
theorem C7_witness :
    (runSession (some ⟨"image/png"⟩) ⟨true, none, .fail⟩).modelCalls ≤ 1 ∧
    (runSession (some ⟨"image/png"⟩) ⟨true, none, .fail⟩).modelCalls = 1 :=
  ⟨(C7_single_attempt (some ⟨"image/png"⟩) ⟨true, none, .fail⟩).1,
   (C7_single_attempt (some ⟨"image/png"⟩) ⟨true, none, .fail⟩).2 ⟨"image/png"⟩ rfl
     (Or.inl ⟨by decide, rfl⟩)⟩

/-- Claim C8: writing a ParsedTable to the spreadsheet grid and reopening
it preserves the column order and every cell text exactly. -/
theorem C8_roundtrip (df : DataFrame) :
    ∃ df2, fromExcelGrid (toExcelGrid df) = some df2 ∧
      df2.columns = df.columns ∧ df2.rows = df.rows :=
  ⟨⟨df.columns, List.range df.rows.length, df.rows⟩, rfl, rfl, rfl⟩

/-- Claim C9: whenever PDF text extraction fails, `process_pdf` shows its
error message and returns `None`, and the caller then evaluates
`pdf_text.encode()` on `None` outside any handler, so the run aborts with
an uncaught AttributeError: no model call, no parse, no artifact. -/
theorem C9_pdf_crash (u : Upload) (env : Oracle)
    (hm : u.mime = "application/pdf") (hp : env.pdf = none) :
    runSession (some u) env = ⟨0, true, false, some .attributeError, none, none⟩ := by
  simp only [runSession]
  rw [hm, if_neg (by decide), if_pos rfl, hp]

/-- Claim C9 witness: instantiating the theorem at a PDF upload whose
extraction fails. -/
theorem C9_witness :
    runSession (some ⟨"application/pdf"⟩) ⟨false, none, .fail⟩ =
      ⟨0, true, false, some .attributeError, none, none⟩ :=
  C9_pdf_crash ⟨"application/pdf"⟩ ⟨false, none, .fail⟩ rfl rfl

/-- Claim C10: a non-empty (after stripping) response that parses to a
table with zero data rows makes `df.drop(0)` raise a KeyError, which is
caught by the handler at line 166 and reported as a failure message, and
no spreadsheet artifact is produced. -/
theorem C10_zero_rows (s : Chars) (df : DataFrame) (hs : stripNonEmpty s = true)
    (h : read_csv s = .ok df) (hr : df.rows = []) :
    processResponse s = ⟨some (.keyError 0), false, 1, none⟩ :=
  processResponse_header_only s df hs h hr

/-- Claim C10 witness: instantiating the theorem at a single header
line. -/
theorem C10_witness :
    processResponse "a|b".toList = ⟨some (.keyError 0), false, 1, none⟩ :=
  C10_zero_rows "a|b".toList ⟨["a".toList, "b".toList], [], []⟩ (by decide) (by rfl) rfl

end PO2XL
